import Mathlib

/-!
Shallow embedding of the OpenSCAD web service (`src/api/app.py`).

The service holds three pieces of mutable state:
  * the models directory tree (files created under `MODELS_DIR`),
  * the in-memory `stl_cache` dictionary mapping STL basenames to paths,
  * the library pool directory (`LIBRARIES_DIR`), holding uploaded `.scad`
    library files keyed by filename.

Files are modelled as an association list from full path strings to contents
strings; the library pool is modelled as an association list from filename to
contents (a file `name` in the pool stands for `LIBRARIES_DIR/name`).
The external OpenSCAD subprocess is a parameter (`CompilerOutcome`) that says
how the single `subprocess.run` call in a handler behaves: it raised
`FileNotFoundError`, raised some other exception, or completed with an exit
code, captured stderr, and an optional output file written at the `-o` path.
Handler-level Python exceptions that escape the handler uncaught are modelled
as explicit `uncaught...` result constructors.
-/

namespace OpenScadWeb

/-- Association-list lookup, mirroring Python dict access `m[k]`
(first binding wins; our maps never hold duplicate keys). -/
def lookupA (m : List (String × String)) (k : String) : Option String :=
  match m with
  | [] => none
  | (k₁, v₁) :: rest => if k₁ = k then some v₁ else lookupA rest k

/-- Association-list update, mirroring Python dict assignment `m[k] = v`
and an overwriting file write at path `k`. -/
def setA (m : List (String × String)) (k v : String) : List (String × String) :=
  match m with
  | [] => [(k, v)]
  | (k₁, v₁) :: rest => if k₁ = k then (k, v) :: rest else (k₁, v₁) :: setA rest k v

/-- Split a character list at every slash (helper for path manipulation). -/
def splitSlashAux (acc : List Char) (cs : List Char) : List (List Char) :=
  match cs with
  | [] => [acc.reverse]
  | c :: rest => if c = '/' then acc.reverse :: splitSlashAux [] rest
                 else splitSlashAux (c :: acc) rest

/-- The slash-separated segments of a path string. -/
def segsOf (p : String) : List (List Char) := splitSlashAux [] p.data

/-- `os.path.basename`: the part of the path after the last slash. -/
def basename (p : String) : String := String.mk ((segsOf p).getLastD [])

/-- Python `str.endswith`. -/
def strEndsWith (s suf : String) : Bool := suf.data.isSuffixOf s.data

/-- String prefix test (used to say a path sits under a directory). -/
def strStartsWith (s pre : String) : Bool := pre.data.isPrefixOf s.data

/-- `MODELS_DIR = os.path.join(tempfile.gettempdir(), 'openscad_models')`,
with the POSIX temp directory `/tmp`. -/
def MODELS_DIR : String := "/tmp/openscad_models"

/-- The whole mutable state of the service process. -/
structure Sys where
  fs : List (String × String)
  stl_cache : List (String × String)
  libs : List (String × String)
  deriving DecidableEq

/-- A request body as seen by `request.get_json()`: either not a JSON
object, or an object with string fields. -/
inductive ReqBody where
  | notObject
  | obj (fields : List (String × String))
  deriving DecidableEq

/-- `data['scadCode']`: `none` means the subscript raises (KeyError on a
missing key, TypeError on a non-object), uncaught by the handler. -/
def getScadCode : ReqBody → Option String
  | .notObject => none
  | .obj fields => lookupA fields "scadCode"

/-- Behaviour of the one `subprocess.run([OPENSCAD_PATH, '-o', stl, scad],
check=True, ...)` call: the executable was missing (`FileNotFoundError`),
some other exception was raised, or the process completed with an exit
code, a captured stderr text, and optionally wrote the `-o` output file. -/
inductive CompilerOutcome where
  | fileNotFoundErr
  | otherExc (msg : String)
  | completed (exitCode : Nat) (stderr : String) (output : Option String)
  deriving DecidableEq

/-- Result of `RenderScad.post` as observed by the HTTP layer. -/
inductive RenderResult where
  | stlPathOk (stlPath : String)
  | toolUnavailable
  | compilationFailed (stderr : String)
  | outputMissing
  | unexpectedErr (msg : String)
  | uncaughtKeyError
  | uncaughtOSError
  deriving DecidableEq

/-- Result of `GetStl.post`: on success the STL bytes are sent inline. -/
inductive GetStlResult where
  | fileBytes (downloadName : String) (content : String)
  | toolUnavailable
  | compilationFailed (stderr : String)
  | outputMissing
  | unexpectedErr (msg : String)
  | uncaughtKeyError
  | uncaughtOSError
  deriving DecidableEq

/-- `model_dir = os.path.join(MODELS_DIR, model_id)`. -/
def modelDirOf (modelId : String) : String := MODELS_DIR ++ "/" ++ modelId

/-- `scad_file_path = os.path.join(model_dir, f"{model_id}.scad")`. -/
def scadFilePathOf (modelId : String) : String :=
  modelDirOf modelId ++ "/" ++ modelId ++ ".scad"

/-- `stl_file_path = os.path.join(model_dir, f"{model_id}.stl")`. -/
def stlFilePathOf (modelId : String) : String :=
  modelDirOf modelId ++ "/" ++ modelId ++ ".stl"

/-- The library-copy loop: every pool file ending in `.scad` is copied
into the model directory. -/
def copyLibs (libs : List (String × String)) (dir : String)
    (fs : List (String × String)) : List (String × String) :=
  match libs with
  | [] => fs
  | (name, content) :: rest =>
      if strEndsWith name ".scad" then
        copyLibs rest dir (setA fs (dir ++ "/" ++ name) content)
      else copyLibs rest dir fs

/-- Workspace staging shared verbatim by both render handlers: make the
model directory, copy the `.scad` library files into it, write the SCAD
source to `scad_file_path`. -/
def stage (scadCode modelId : String) (s : Sys) : Sys :=
  let dir := modelDirOf modelId
  let fs₁ := copyLibs s.libs dir s.fs
  let fs₂ := setA fs₁ (scadFilePathOf modelId) scadCode
  ⟨fs₂, s.stl_cache, s.libs⟩

/-- `RenderScad.post`. `modelId` stands for the fresh `uuid.uuid4()`;
`ioOk = false` injects an OSError (disk full, permission) into the first
workspace filesystem operation, which sits outside the try block.
On a zero exit the basename is cached BEFORE the `os.path.exists` check. -/
def renderScad (body : ReqBody) (modelId : String) (ioOk : Bool)
    (comp : CompilerOutcome) (s : Sys) : RenderResult × Sys :=
  match getScadCode body with
  | none => (.uncaughtKeyError, s)
  | some scadCode =>
      if ioOk then
        let s₁ := stage scadCode modelId s
        let stl_file_path := stlFilePathOf modelId
        match comp with
        | .fileNotFoundErr => (.toolUnavailable, s₁)
        | .otherExc m => (.unexpectedErr m, s₁)
        | .completed exitCode stderr output =>
            if exitCode ≠ 0 then (.compilationFailed stderr, s₁)
            else
              let s₂ : Sys := match output with
                | some c => ⟨setA s₁.fs stl_file_path c, s₁.stl_cache, s₁.libs⟩
                | none => s₁
              let stl_basename := basename stl_file_path
              let s₃ : Sys := ⟨s₂.fs, setA s₂.stl_cache stl_basename stl_file_path, s₂.libs⟩
              if (lookupA s₃.fs stl_file_path).isSome then
                (.stlPathOk ("/api/view3d?file=" ++ stl_basename), s₃)
              else (.outputMissing, s₃)
      else (.uncaughtOSError, s)

/-- `GetStl.post`: identical staging and compiler invocation, but no
`stl_cache` insertion; on success the file contents are sent back
(`send_file(..., download_name='model.stl')`). -/
def getStl (body : ReqBody) (modelId : String) (ioOk : Bool)
    (comp : CompilerOutcome) (s : Sys) : GetStlResult × Sys :=
  match getScadCode body with
  | none => (.uncaughtKeyError, s)
  | some scadCode =>
      if ioOk then
        let s₁ := stage scadCode modelId s
        let stl_file_path := stlFilePathOf modelId
        match comp with
        | .fileNotFoundErr => (.toolUnavailable, s₁)
        | .otherExc m => (.unexpectedErr m, s₁)
        | .completed exitCode stderr output =>
            if exitCode ≠ 0 then (.compilationFailed stderr, s₁)
            else
              let s₂ : Sys := match output with
                | some c => ⟨setA s₁.fs stl_file_path c, s₁.stl_cache, s₁.libs⟩
                | none => s₁
              match lookupA s₂.fs stl_file_path with
              | some c => (.fileBytes "model.stl" c, s₂)
              | none => (.outputMissing, s₂)
      else (.uncaughtOSError, s)

/-- Result of `View3D.get`. -/
inductive FetchResult where
  | invalidInput
  | served (path : String) (content : String)
  | notFound
  deriving DecidableEq

/-- The `os.walk(MODELS_DIR)` fallback loop of `View3D.get`: the first file
under `MODELS_DIR` whose basename equals `filename`, if any. A filename
containing a slash can never equal a directory-entry name, so it never
matches, exactly as `filename in files` never holds for it in Python. -/
def walkFind (fs : List (String × String)) (filename : String) : Option String :=
  match fs with
  | [] => none
  | (p, _) :: rest =>
      if strStartsWith p (MODELS_DIR ++ "/") && basename p = filename then some p
      else walkFind rest filename

/-- The path-resolution block of `View3D.get`: cache hit, else walk of the
models tree, else `os.path.join(MODELS_DIR, filename)` with no
sanitization of `filename`. -/
def resolveStlPath (filename : String) (s : Sys) : String :=
  match lookupA s.stl_cache filename with
  | some p => p
  | none =>
      match walkFind s.fs filename with
      | some p => p
      | none => MODELS_DIR ++ "/" ++ filename

/-- `View3D.get`: `fileArg` is `request.args.get('file')` (`none` when the
query parameter is absent). Validation is exactly
`if not filename or not filename.endswith('.stl')`. -/
def view3d (fileArg : Option String) (s : Sys) : FetchResult :=
  match fileArg with
  | none => .invalidInput
  | some filename =>
      if filename = "" || !(strEndsWith filename ".stl") then .invalidInput
      else
        let stl_file_path := resolveStlPath filename s
        match lookupA s.fs stl_file_path with
        | some c => .served stl_file_path c
        | none => .notFound

/-- Result of `UploadLibrary.post`. -/
inductive UploadResult where
  | noFilePart
  | noFileSelected
  | badExtension
  | saved (name : String)
  | saveError (msg : String)
  deriving DecidableEq

/-- The error kinds `UploadLibrary.post` answers with HTTP 400 for a
malformed name (the InvalidInput family). -/
def isInvalidInputU : UploadResult → Bool
  | .noFileSelected => true
  | .badExtension => true
  | _ => false

/-- `UploadLibrary.post`: `filePart` is the `file` entry of
`request.files` (`none` when absent) as a (filename, bytes) pair;
`saveOk = false` injects an exception into `file.save`, caught by the
handler and answered with a 500. A valid name is saved at
`os.path.join(LIBRARIES_DIR, filename)`, modelled as the pool key. -/
def uploadLibrary (filePart : Option (String × String)) (saveOk : Bool)
    (s : Sys) : UploadResult × Sys :=
  match filePart with
  | none => (.noFilePart, s)
  | some (filename, content) =>
      if filename = "" then (.noFileSelected, s)
      else if !(strEndsWith filename ".scad") then (.badExtension, s)
      else if saveOk then
        (.saved filename, ⟨s.fs, s.stl_cache, setA s.libs filename content⟩)
      else (.saveError "save failed", s)

/-- Concatenation of the chunks of an upload stream. -/
def concatChunks : List String → String
  | [] => ""
  | c :: rest => c ++ concatChunks rest

/-- The library pool as observable while the `file.save(file_path)` call of
`UploadLibrary.post` is in progress. Werkzeug FileStorage.save opens the
destination path itself for writing and copies the upload stream into it
in fixed-size chunks — there is no temporary file and no rename anywhere
in the handler — so after `k` chunks a concurrent reader of the pool sees
the file holding the concatenation of the first `k` chunks. -/
def poolDuringSave (libs : List (String × String)) (name : String)
    (chunks : List String) (k : Nat) : List (String × String) :=
  setA libs name (concatChunks (chunks.take k))

/-- The observation `obs` of library `name` is a complete published
payload: either the pool entry from before the write, or the full new
payload. -/
def completePublished (libs : List (String × String)) (name payload : String)
    (obs : Option String) : Prop :=
  obs = lookupA libs name ∨ obs = some payload

/-- POSIX-style resolution of `..` and `.` segments of an absolute path
(what the operating system does when the joined fallback path of
`View3D.get` is opened). -/
def normStack (stack : List (List Char)) (segs : List (List Char)) :
    List (List Char) :=
  match segs with
  | [] => stack.reverse
  | seg :: rest =>
      if seg = ['.', '.'] then normStack stack.tail rest
      else if seg = [] || seg = ['.'] then normStack stack rest
      else normStack (seg :: stack) rest

/-- Normal form of an absolute path after resolving `.` and `..`. -/
def normalizePath (p : String) : String :=
  "/" ++ String.intercalate "/" ((normStack [] (segsOf p)).map String.mk)

/-- Typed results of `RenderScad.post`: the JSON bodies the handler itself
returns, as opposed to exceptions escaping it uncaught. -/
def isTypedResult : RenderResult → Bool
  | .uncaughtKeyError => false
  | .uncaughtOSError => false
  | _ => true

/-- Typed results of `GetStl.post`. -/
def isTypedResultG : GetStlResult → Bool
  | .uncaughtKeyError => false
  | .uncaughtOSError => false
  | _ => true

/-- Success of `RenderScad.post` (HTTP 200 with an stlPath). -/
def isSuccessR : RenderResult → Bool
  | .stlPathOk _ => true
  | _ => false

/-- Success of `GetStl.post` (HTTP 200 with the file bytes). -/
def isSuccessG : GetStlResult → Bool
  | .fileBytes _ _ => true
  | _ => false


/-! Helper lemmas. -/

/-- Looking up a key just written returns the written value. -/
theorem lookupA_setA_self (m : List (String × String)) (k v : String) :
    lookupA (setA m k v) k = some v := by
  induction m with
  | nil => simp [setA, lookupA]
  | cons hd tl ih =>
      obtain ⟨k₁, v₁⟩ := hd
      by_cases h : k₁ = k
      · simp [setA, h, lookupA]
      · simp [setA, h, lookupA, ih]

/-- A path found by the fallback walk is a file present in the tree. -/
theorem walkFind_lookupA_isSome (fs : List (String × String)) (f p : String)
    (h : walkFind fs f = some p) : (lookupA fs p).isSome = true := by
  induction fs with
  | nil => simp [walkFind] at h
  | cons hd tl ih =>
      obtain ⟨q, v⟩ := hd
      by_cases hc : (strStartsWith q (MODELS_DIR ++ "/") && decide (basename q = f)) = true
      · rw [walkFind] at h
        simp only [hc, if_true] at h
        obtain rfl : q = p := by exact Option.some.inj h
        simp [lookupA]
      · rw [walkFind] at h
        simp only [hc] at h
        by_cases hq : q = p
        · simp [lookupA, hq]
        · simpa [lookupA, hq] using ih (by simpa using h)

/-- Chunk concatenation distributes over list append. -/
theorem concatChunks_append (l₁ l₂ : List String) :
    concatChunks (l₁ ++ l₂) = concatChunks l₁ ++ concatChunks l₂ := by
  induction l₁ with
  | nil => simp [concatChunks]
  | cons hd tl ih => simp [concatChunks, ih, String.append_assoc]

/-- Staging only writes files; the cache and pool fields are untouched. -/
theorem stage_stl_cache (scadCode modelId : String) (s : Sys) :
    (stage scadCode modelId s).stl_cache = s.stl_cache := rfl

/-- Staging leaves the library pool untouched. -/
theorem stage_libs (scadCode modelId : String) (s : Sys) :
    (stage scadCode modelId s).libs = s.libs := rfl

/-! Claim theorems. -/

/-- C1: the claim says no index entry is created for an OutputMissing job,
but the code inserts into `stl_cache` before the `os.path.exists` check.
Evaluated at the failing input (compiler exits zero, writes nothing): the
request answers with the OutputMissing error, yet the index maps the STL
basename to a path at which no file exists. -/
theorem C1_dangling_index_entry :
    (renderScad (.obj [("scadCode", "cube(1);")]) "m" true
        (.completed 0 "" none) ⟨[], [], []⟩).1 = .outputMissing ∧
    lookupA (renderScad (.obj [("scadCode", "cube(1);")]) "m" true
        (.completed 0 "" none) ⟨[], [], []⟩).2.stl_cache "m.stl"
      = some (stlFilePathOf "m") ∧
    lookupA (renderScad (.obj [("scadCode", "cube(1);")]) "m" true
        (.completed 0 "" none) ⟨[], [], []⟩).2.fs (stlFilePathOf "m") = none := by
  decide

/-- C2 counterexample: a RenderAndFetch (`GetStl.post`) call that succeeds
and returns the artifact bytes leaves the artifact index empty — the
artifact id is not registered, contrary to the claim. -/
theorem C2_counterexample :
    isSuccessG (getStl (.obj [("scadCode", "cube(1);")]) "m" true
        (.completed 0 "" (some "solid m")) ⟨[], [], []⟩).1 = true ∧
    (getStl (.obj [("scadCode", "cube(1);")]) "m" true
        (.completed 0 "" (some "solid m")) ⟨[], [], []⟩).2.stl_cache = [] := by
  decide

/-- C2 (amended): Render and RenderAndFetch run the same staging and
compiler steps — identical filesystem effects and identical
success/failure classification — but RenderAndFetch never touches the
artifact index: its `stl_cache` is left exactly as it was. -/
theorem C2_same_pipeline_no_publish (body : ReqBody) (modelId : String)
    (ioOk : Bool) (comp : CompilerOutcome) (s : Sys) :
    (getStl body modelId ioOk comp s).2.stl_cache = s.stl_cache ∧
    (getStl body modelId ioOk comp s).2.fs = (renderScad body modelId ioOk comp s).2.fs ∧
    (getStl body modelId ioOk comp s).2.libs = (renderScad body modelId ioOk comp s).2.libs ∧
    isSuccessG (getStl body modelId ioOk comp s).1
      = isSuccessR (renderScad body modelId ioOk comp s).1 := by
  cases hb : getScadCode body with
  | none => simp [getStl, renderScad, hb, isSuccessG, isSuccessR, stage_stl_cache, stage_libs]
  | some code =>
      cases ioOk with
      | false => simp [getStl, renderScad, hb, isSuccessG, isSuccessR, stage_stl_cache, stage_libs]
      | true =>
          cases comp with
          | fileNotFoundErr => simp [getStl, renderScad, hb, isSuccessG, isSuccessR, stage_stl_cache, stage_libs]
          | otherExc m => simp [getStl, renderScad, hb, isSuccessG, isSuccessR, stage_stl_cache, stage_libs]
          | completed ec se out =>
              by_cases he : ec = 0
              · subst he
                cases out with
                | none =>
                    cases hl : lookupA (stage code modelId s).fs (stlFilePathOf modelId) with
                    | none => simp [getStl, renderScad, hb, hl, isSuccessG, isSuccessR, stage_stl_cache, stage_libs]
                    | some c => simp [getStl, renderScad, hb, hl, isSuccessG, isSuccessR, stage_stl_cache, stage_libs]
                | some c =>
                    simp [getStl, renderScad, hb, lookupA_setA_self,
                      isSuccessG, isSuccessR, stage_stl_cache, stage_libs]
              · simp [getStl, renderScad, hb, he, isSuccessG, isSuccessR, stage_stl_cache, stage_libs]

/-- C3 counterexample: a workspace IO failure (disk full at directory
creation) does not come back as a typed result — the handler lets the
OSError escape uncaught. -/
theorem C3_counterexample :
    (renderScad (.obj [("scadCode", "cube(1);")]) "m" false
        .fileNotFoundErr ⟨[], [], []⟩).1 = .uncaughtOSError ∧
    isTypedResult (renderScad (.obj [("scadCode", "cube(1);")]) "m" false
        .fileNotFoundErr ⟨[], [], []⟩).1 = false := by
  decide

/-- C3 (amended): workspace creation and input-file writes sit outside the
try block of both render handlers, so an IO failure there propagates as an
uncaught exception (no typed result, state unchanged); only failures
raised from the compiler invocation onward are caught and returned as
typed results. -/
theorem C3_workspace_failure_uncaught (body : ReqBody) (modelId : String)
    (comp : CompilerOutcome) (s : Sys) (scadCode : String)
    (h : getScadCode body = some scadCode) :
    renderScad body modelId false comp s = (.uncaughtOSError, s) ∧
    getStl body modelId false comp s = (.uncaughtOSError, s) ∧
    isTypedResult (renderScad body modelId true comp s).1 = true ∧
    isTypedResultG (getStl body modelId true comp s).1 = true := by
  refine ⟨by simp [renderScad, h], by simp [getStl, h], ?_, ?_⟩
  · cases comp with
    | fileNotFoundErr => simp [renderScad, h, isTypedResult]
    | otherExc m => simp [renderScad, h, isTypedResult]
    | completed ec se out =>
        by_cases he : ec = 0
        · subst he
          cases out with
          | none =>
              cases hl : lookupA (stage scadCode modelId s).fs (stlFilePathOf modelId) with
              | none => simp [renderScad, h, hl, isTypedResult]
              | some c => simp [renderScad, h, hl, isTypedResult]
          | some c => simp [renderScad, h, lookupA_setA_self, isTypedResult]
        · simp [renderScad, h, he, isTypedResult]
  · cases comp with
    | fileNotFoundErr => simp [getStl, h, isTypedResultG]
    | otherExc m => simp [getStl, h, isTypedResultG]
    | completed ec se out =>
        by_cases he : ec = 0
        · subst he
          cases out with
          | none =>
              cases hl : lookupA (stage scadCode modelId s).fs (stlFilePathOf modelId) with
              | none => simp [getStl, h, hl, isTypedResultG]
              | some c => simp [getStl, h, hl, isTypedResultG]
          | some c => simp [getStl, h, lookupA_setA_self, isTypedResultG]
        · simp [getStl, h, he, isTypedResultG]

/-- C3 witness: the amended theorem applied at a concrete request. -/
theorem C3_workspace_failure_uncaught_witness :
    renderScad (.obj [("scadCode", "cube(1);")]) "m" false
        (.completed 0 "" none) ⟨[], [], []⟩ = (.uncaughtOSError, ⟨[], [], []⟩) :=
  (C3_workspace_failure_uncaught (.obj [("scadCode", "cube(1);")]) "m"
    (.completed 0 "" none) ⟨[], [], []⟩ "cube(1);" (by decide)).1

/-- C4: classification of the compiler invocation by `RenderScad.post`:
FileNotFoundError from the missing executable answers ToolUnavailable; a
non-zero exit answers CompilationFailed carrying the captured stderr; a
zero exit with the expected output file absent answers OutputMissing; a
zero exit with the output present answers success with the artifact
reference. The freshness hypothesis says the just-created workspace does
not already hold a file at the output path. -/
theorem C4_executor_classification (body : ReqBody) (modelId scadCode : String)
    (s : Sys) (h : getScadCode body = some scadCode)
    (hfresh : lookupA (stage scadCode modelId s).fs (stlFilePathOf modelId) = none) :
    (renderScad body modelId true .fileNotFoundErr s).1 = .toolUnavailable ∧
    (∀ (ec : Nat) (se : String) (out : Option String), ec ≠ 0 →
      (renderScad body modelId true (.completed ec se out) s).1 = .compilationFailed se) ∧
    (∀ se : String,
      (renderScad body modelId true (.completed 0 se none) s).1 = .outputMissing) ∧
    (∀ se c : String,
      (renderScad body modelId true (.completed 0 se (some c)) s).1
        = .stlPathOk ("/api/view3d?file=" ++ basename (stlFilePathOf modelId))) := by
  refine ⟨by simp [renderScad, h], ?_, ?_, ?_⟩
  · intro ec se out he
    simp [renderScad, h, he]
  · intro se
    simp [renderScad, h, hfresh]
  · intro se c
    simp [renderScad, h, lookupA_setA_self]

/-- C4 witness: the classification applied at a concrete request on a
fresh state, all four cases instantiated. -/
theorem C4_executor_classification_witness :
    (renderScad (.obj [("scadCode", "cube(1);")]) "m" true
        .fileNotFoundErr ⟨[], [], []⟩).1 = .toolUnavailable ∧
    (renderScad (.obj [("scadCode", "cube(1);")]) "m" true
        (.completed 1 "ERROR: syntax error" none) ⟨[], [], []⟩).1
      = .compilationFailed "ERROR: syntax error" ∧
    (renderScad (.obj [("scadCode", "cube(1);")]) "m" true
        (.completed 0 "" none) ⟨[], [], []⟩).1 = .outputMissing ∧
    (renderScad (.obj [("scadCode", "cube(1);")]) "m" true
        (.completed 0 "" (some "solid m")) ⟨[], [], []⟩).1
      = .stlPathOk ("/api/view3d?file=" ++ basename (stlFilePathOf "m")) := by
  obtain ⟨h₁, h₂, h₃, h₄⟩ := C4_executor_classification (.obj [("scadCode", "cube(1);")])
    "m" "cube(1);" ⟨[], [], []⟩ (by decide) (by decide)
  exact ⟨h₁, h₂ 1 "ERROR: syntax error" none (by decide), h₃ "", h₄ "" "solid m"⟩

/-- C5: `View3D.get` resolves a well-formed id in this order: the cached
path if the id is an exact hit in the in-memory index; otherwise the first
file of that name found by the recursive walk of the models root (so a
fetch with an empty index still succeeds for any artifact file present on
disk); otherwise the direct join under the models root, and when no file
exists there the handler answers NotFound rather than crashing, whatever
the index holds. -/
theorem C5_fetch_resolution_order (f : String) (s : Sys)
    (hne : f ≠ "") (hext : strEndsWith f ".stl" = true) :
    (∀ p, lookupA s.stl_cache f = some p → resolveStlPath f s = p) ∧
    (∀ p c, lookupA s.stl_cache f = some p → lookupA s.fs p = some c →
      view3d (some f) s = .served p c) ∧
    (∀ p, lookupA s.stl_cache f = none → walkFind s.fs f = some p →
      ∃ c, lookupA s.fs p = some c ∧ view3d (some f) s = .served p c) ∧
    (lookupA s.stl_cache f = none → walkFind s.fs f = none →
      resolveStlPath f s = MODELS_DIR ++ "/" ++ f ∧
      (lookupA s.fs (MODELS_DIR ++ "/" ++ f) = none → view3d (some f) s = .notFound)) := by
  refine ⟨?_, ?_, ?_, ?_⟩
  · intro p hp
    simp [resolveStlPath, hp]
  · intro p c hp hc
    simp [view3d, hne, hext, resolveStlPath, hp, hc]
  · intro p hmiss hwalk
    have hsome := walkFind_lookupA_isSome s.fs f p hwalk
    obtain ⟨c, hc⟩ := Option.isSome_iff_exists.mp hsome
    exact ⟨c, hc, by simp [view3d, hne, hext, resolveStlPath, hmiss, hwalk, hc]⟩
  · intro hmiss hwalk
    refine ⟨by simp [resolveStlPath, hmiss, hwalk], ?_⟩
    intro hfile
    simp [view3d, hne, hext, resolveStlPath, hmiss, hwalk, hfile]

/-- C5 witness: a fetch against an empty index with the artifact present
on disk succeeds through the fallback walk, and a fetch of an unknown id
on an empty state answers NotFound. -/
theorem C5_fetch_resolution_order_witness :
    view3d (some "m.stl") ⟨[("/tmp/openscad_models/m/m.stl", "solid m")], [], []⟩
      = .served "/tmp/openscad_models/m/m.stl" "solid m" ∧
    view3d (some "zzz.stl") ⟨[], [], []⟩ = .notFound := by
  constructor
  · obtain ⟨c, hc, hserved⟩ :=
      (C5_fetch_resolution_order "m.stl"
        ⟨[("/tmp/openscad_models/m/m.stl", "solid m")], [], []⟩
        (by decide) (by decide)).2.2.1 "/tmp/openscad_models/m/m.stl" (by decide) (by decide)
    have : c = "solid m" := by
      have := hc
      simp [lookupA] at this
      exact this.symm
    rw [this] at hserved
    exact hserved
  · exact ((C5_fetch_resolution_order "zzz.stl" ⟨[], [], []⟩
      (by decide) (by decide)).2.2.2 (by decide) (by decide)).2 (by decide)

/-- C6 counterexample: the code never checks that the artifact is
non-empty — a compiler run that exits zero after writing an empty output
file makes Render succeed, and the subsequent Fetch serves an empty byte
stream, refuting the claimed non-emptiness. -/
theorem C6_counterexample :
    (renderScad (.obj [("scadCode", "cube(0);")]) "m" true
        (.completed 0 "" (some "")) ⟨[], [], []⟩).1
      = .stlPathOk "/api/view3d?file=m.stl" ∧
    view3d (some "m.stl")
      (renderScad (.obj [("scadCode", "cube(0);")]) "m" true
        (.completed 0 "" (some "")) ⟨[], [], []⟩).2
      = .served (stlFilePathOf "m") "" := by
  decide

/-- C6 (amended): after a Render whose compiler invocation exits zero
having written output bytes `c`, the returned reference resolves through
the index and Fetch serves exactly the bytes of the artifact file on disk
— the stream equals the file, so their sizes agree, and it is non-empty
exactly when the compiler wrote non-empty output. -/
theorem C6_render_then_fetch (body : ReqBody) (modelId scadCode se c : String)
    (s : Sys) (h : getScadCode body = some scadCode)
    (hb1 : basename (stlFilePathOf modelId) ≠ "")
    (hb2 : strEndsWith (basename (stlFilePathOf modelId)) ".stl" = true) :
    (renderScad body modelId true (.completed 0 se (some c)) s).1
      = .stlPathOk ("/api/view3d?file=" ++ basename (stlFilePathOf modelId)) ∧
    lookupA (renderScad body modelId true (.completed 0 se (some c)) s).2.fs
      (stlFilePathOf modelId) = some c ∧
    view3d (some (basename (stlFilePathOf modelId)))
      (renderScad body modelId true (.completed 0 se (some c)) s).2
      = .served (stlFilePathOf modelId) c := by
  refine ⟨by simp [renderScad, h, lookupA_setA_self], ?_, ?_⟩
  · simp [renderScad, h, lookupA_setA_self]
  · simp [renderScad, h, lookupA_setA_self, view3d, hb1, hb2, resolveStlPath]

/-- C6 witness: the round trip at a concrete render. -/
theorem C6_render_then_fetch_witness :
    view3d (some (basename (stlFilePathOf "m")))
      (renderScad (.obj [("scadCode", "cube(1);")]) "m" true
        (.completed 0 "" (some "solid m")) ⟨[], [], []⟩).2
      = .served (stlFilePathOf "m") "solid m" :=
  (C6_render_then_fetch (.obj [("scadCode", "cube(1);")]) "m" "cube(1);" "" "solid m"
    ⟨[], [], []⟩ (by decide) (by decide) (by decide)).2.2

/-- C7: `UploadLibrary.post` answers the InvalidInput family (HTTP 400)
for an empty name or a name not ending in `.scad`, leaving the whole state
— in particular the library pool — untouched; a valid name whose save
succeeds is written (overwriting any prior entry) at `poolRoot/name`. -/
theorem C7_register_library_validation (filePart : Option (String × String))
    (saveOk : Bool) (s : Sys) (name content : String)
    (hf : filePart = some (name, content)) :
    ((name = "" ∨ strEndsWith name ".scad" = false) →
      isInvalidInputU (uploadLibrary filePart saveOk s).1 = true ∧
      (uploadLibrary filePart saveOk s).2 = s) ∧
    (name ≠ "" → strEndsWith name ".scad" = true → saveOk = true →
      uploadLibrary filePart saveOk s
        = (.saved name, ⟨s.fs, s.stl_cache, setA s.libs name content⟩)) := by
  subst hf
  constructor
  · rintro (h | h)
    · simp [uploadLibrary, h, isInvalidInputU]
    · by_cases h0 : name = ""
      · simp [uploadLibrary, h0, isInvalidInputU]
      · simp [uploadLibrary, h0, h, isInvalidInputU]
  · intro h0 hext hsave
    simp [uploadLibrary, h0, hext, hsave]

/-- C7 witness: a `.txt` upload is rejected with the pool untouched; a
`.scad` upload is stored in the pool under its own name. -/
theorem C7_register_library_validation_witness :
    isInvalidInputU (uploadLibrary (some ("helper.txt", "x")) true
        ⟨[], [], [("lib.scad", "old")]⟩).1 = true ∧
    (uploadLibrary (some ("helper.txt", "x")) true
        ⟨[], [], [("lib.scad", "old")]⟩).2 = ⟨[], [], [("lib.scad", "old")]⟩ ∧
    uploadLibrary (some ("helper.scad", "new")) true ⟨[], [], [("lib.scad", "old")]⟩
      = (.saved "helper.scad",
          ⟨[], [], setA [("lib.scad", "old")] "helper.scad" "new"⟩) := by
  refine ⟨?_, ?_, ?_⟩
  · exact ((C7_register_library_validation _ true _ "helper.txt" "x" rfl).1
      (Or.inr (by decide))).1
  · exact ((C7_register_library_validation _ true _ "helper.txt" "x" rfl).1
      (Or.inr (by decide))).2
  · exact (C7_register_library_validation _ true _ "helper.scad" "new" rfl).2
      (by decide) (by decide) rfl

/-- C8 counterexample: the save writes in place, so midway through a
two-chunk upload of `"solid"` to a previously absent `helper.scad` a
concurrent reader of the pool observes `"sol"` — neither the prior
version (absent) nor the complete new payload. -/
theorem C8_counterexample :
    lookupA (poolDuringSave [] "helper.scad" ["sol", "id"] 1) "helper.scad"
      = some "sol" ∧
    ¬ completePublished [] "helper.scad" "solid" (some "sol") := by
  refine ⟨by decide, ?_⟩
  rintro (h | h)
  · simp [lookupA] at h
  · exact absurd h (by decide)

/-- C8 (amended): `file.save` copies the upload into `poolRoot/name` in
place, chunk by chunk, with no temporary file or rename; after `k` chunks
a reader sees exactly the concatenation of the first `k` chunks — always
a prefix of the full payload, but possibly a proper one — and once the
copy completes the pool holds the full payload. -/
theorem C8_save_observable_states (libs : List (String × String)) (name : String)
    (chunks : List String) (k : Nat) (_hk : k ≤ chunks.length) :
    lookupA (poolDuringSave libs name chunks k) name
      = some (concatChunks (chunks.take k)) ∧
    concatChunks chunks
      = concatChunks (chunks.take k) ++ concatChunks (chunks.drop k) ∧
    poolDuringSave libs name chunks chunks.length
      = setA libs name (concatChunks chunks) := by
  refine ⟨lookupA_setA_self _ _ _, ?_, ?_⟩
  · conv_lhs => rw [← List.take_append_drop k chunks]
    exact concatChunks_append _ _
  · simp [poolDuringSave, List.take_length]

/-- C8 witness: the amended theorem applied at a concrete two-chunk save. -/
theorem C8_save_observable_states_witness :
    lookupA (poolDuringSave [] "helper.scad" ["sol", "id"] 2) "helper.scad"
      = some (concatChunks (["sol", "id"].take 2)) :=
  (C8_save_observable_states [] "helper.scad" ["sol", "id"] 2 (by decide)).1

/-- C9: the only validation `View3D.get` performs on the id is that it is
non-empty and ends in `.stl` — the handler answers InvalidInput exactly
when that test fails — and an id passing it may carry `..` segments: the
fallback join for such an id is taken verbatim under the models root and
resolves to a path outside it. -/
theorem C9_fetch_validation_traversal :
    (∀ (f : String) (s : Sys),
      view3d (some f) s = .invalidInput ↔ (f = "" ∨ strEndsWith f ".stl" = false)) ∧
    ("../../etc/shadow.stl" ≠ "" ∧ strEndsWith "../../etc/shadow.stl" ".stl" = true) ∧
    resolveStlPath "../../etc/shadow.stl" ⟨[], [], []⟩
      = MODELS_DIR ++ "/" ++ "../../etc/shadow.stl" ∧
    strStartsWith (normalizePath (MODELS_DIR ++ "/" ++ "../../etc/shadow.stl"))
      (MODELS_DIR ++ "/") = false ∧
    normalizePath (MODELS_DIR ++ "/" ++ "../../etc/shadow.stl") = "/etc/shadow.stl" := by
  refine ⟨?_, by decide, by decide, by decide, by decide⟩
  intro f s
  by_cases h1 : f = ""
  · simp [view3d, h1]
  · by_cases h2 : strEndsWith f ".stl" = true
    · cases hl : lookupA s.fs (resolveStlPath f s) with
      | none => simp [view3d, h1, h2, hl]
      | some c => simp [view3d, h1, h2, hl]
    · simp [view3d, h1, h2]

/-- C10: when the JSON body is not an object or lacks the `scadCode` key,
both render handlers raise an uncaught exception with the whole state —
in particular the workspace tree — unchanged, instead of answering a
typed InvalidInput result. -/
theorem C10_missing_scadCode_uncaught (body : ReqBody) (modelId : String)
    (ioOk : Bool) (comp : CompilerOutcome) (s : Sys)
    (h : getScadCode body = none) :
    renderScad body modelId ioOk comp s = (.uncaughtKeyError, s) ∧
    getStl body modelId ioOk comp s = (.uncaughtKeyError, s) ∧
    isTypedResult .uncaughtKeyError = false ∧
    isTypedResultG .uncaughtKeyError = false := by
  exact ⟨by simp [renderScad, h], by simp [getStl, h], rfl, rfl⟩

/-- C10 witness: a body holding only an unrelated key, evaluated. -/
theorem C10_missing_scadCode_uncaught_witness :
    renderScad (.obj [("shape", "cube")]) "m" true (.completed 0 "" none) ⟨[], [], []⟩
      = (.uncaughtKeyError, ⟨[], [], []⟩) :=
  (C10_missing_scadCode_uncaught (.obj [("shape", "cube")]) "m" true
    (.completed 0 "" none) ⟨[], [], []⟩ (by decide)).1

end OpenScadWeb
